import Mathlib

/-
Verification development for the iotapkg binary codec layer:
type-discriminated serialization of ledger-transaction entities
(signatures, inputs, outputs, the unsigned-transaction envelope) with a
generic array-of-objects codec parameterized by declarative array rules.

Bytes are modelled as natural numbers inside lists; Go multi-value
returns (value, bytesConsumed, error) are modelled as tuples with an
Option error component; Go interface dispatch is modelled by passing the
concrete entity decode function as a parameter of the generic codec.
-/

/-- Structural model of Go error values: a base error created by
errors.New, or a wrapping error created by fmt.Errorf with a context
message around an inner error. -/
inductive GoError where
  | base (msg : String)
  | wrap (msg : String) (inner : GoError)
deriving DecidableEq

/-- Error value ErrInvalidBytes from error.go. -/
def ErrInvalidBytes : GoError := GoError.base "invalid bytes"

/-- Error value ErrUnknownSignatureType from error.go. -/
def ErrUnknownSignatureType : GoError := GoError.base "unknown signature type"

/-- Error value ErrUnknownTransactionType from error.go. -/
def ErrUnknownTransactionType : GoError := GoError.base "unknown transaction type"

/-- Error value ErrDeserializationDataTooSmall from error.go. -/
def ErrDeserializationDataTooSmall : GoError := GoError.base "not enough data for deserialization"

/-- Error value ErrInputsOrderViolatesLexicalOrder from the transaction source file. -/
def ErrInputsOrderViolatesLexicalOrder : GoError :=
  GoError.base "inputs must be in their lexical order (byte wise) when serialized"

/-- Error value ErrOutputsOrderViolatesLexicalOrder from the transaction source file. -/
def ErrOutputsOrderViolatesLexicalOrder : GoError :=
  GoError.base "outputs must be in their lexical order (byte wise) when serialized"

/-- Error value ErrInputUTXORefsNotUnique from the transaction source file. -/
def ErrInputUTXORefsNotUnique : GoError :=
  GoError.base "inputs must each reference a unique UTXO"

/-- Error value ErrOutputAddrNotUnique from the transaction source file. -/
def ErrOutputAddrNotUnique : GoError :=
  GoError.base "outputs must each deposit to a unique address"

/-- Modelled from the spec: the size constant OneByte (declared outside src/) is
the byte length of a single type-denoting byte. -/
def OneByte : Nat := 1

/-- Byte length of an Ed25519 public key (Go crypto/ed25519 PublicKeySize). -/
def Ed25519PublicKeySize : Nat := 32

/-- Byte length of an Ed25519 signature (Go crypto/ed25519 SignatureSize). -/
def Ed25519SignatureSize : Nat := 64

/-- Modelled from the spec: Ed25519AddressSerializedBytesSize (declared in the
address source file, which is not under src/) is the serialized size of an
Ed25519 address, laid out as one type byte followed by 32 public-key bytes. -/
def Ed25519AddressSerializedBytesSize : Nat := OneByte + Ed25519PublicKeySize

/-- The size of a serialized Ed25519 signature with its type denoting byte and
public key, from signature.go. -/
def Ed25519SignatureSerializedBytesSize : Nat :=
  OneByte + Ed25519PublicKeySize + Ed25519SignatureSize

/-- Type discriminant of a WOTS signature, from signature.go. -/
def SignatureWOTS : Nat := 0

/-- Type discriminant of an Ed25519 signature, from signature.go. -/
def SignatureEd25519 : Nat := 1

/-- Type discriminant of an unsigned transaction, from the transaction source file. -/
def TransactionUnsigned : Nat := 0

/-- Recursive worker for the varint decoder: remaining bytes, bytes consumed
so far, current bit shift, accumulated value. -/
def uvarintLoop : List Nat → Nat → Nat → Nat → Nat × Nat × Option GoError
  | [], _, _, _ => (0, 0, some ErrDeserializationDataTooSmall)
  | b :: rest, consumed, shift, acc =>
    if consumed ≥ 10 then (0, 0, some ErrInvalidBytes)
    else if b < 128 then (acc + b * 2 ^ shift, consumed + 1, none)
    else uvarintLoop rest (consumed + 1) (shift + 7) (acc + b % 128 * 2 ^ shift)

/-- Modelled from the spec: the Uvarint decoder of the repository is not under
src/. Base-128 little-endian groups of 7 value bits with a high continuation
bit; decoding stops at the first byte without the continuation bit. Fails with
ErrDeserializationDataTooSmall when the buffer ends before a terminating byte
and with ErrInvalidBytes when more than the 10-byte maximum width for 64-bit
values is consumed. Returns the parsed value, the exact number of bytes
consumed, and an optional error. -/
def Uvarint (data : List Nat) : Nat × Nat × Option GoError :=
  uvarintLoop data 0 0 0

/-- Fuel-bounded worker for the varint encoder; ten output bytes always
suffice for the 64-bit values the source operates on. -/
def putUvarintAux : Nat → Nat → List Nat
  | 0, _ => []
  | fuel + 1, x => if x < 128 then [x] else (x % 128 + 128) :: putUvarintAux fuel (x / 128)

/-- Modelled from the spec: the varint encoder (binary.PutUvarint) emits the
minimal base-128 little-endian encoding of an unsigned value. -/
def PutUvarint (x : Nat) : List Nat := putUvarintAux 10 x

/-- Go builtin copy(dst, src): overwrites the first min(len dst, len src)
entries of dst with the corresponding entries of src; the length of dst is
unchanged. -/
def goCopy (dst src : List Nat) : List Nat :=
  src.take dst.length ++ dst.drop src.length

/-- Go slice-assignment pattern copy(b[start:], src): copies src into b
starting at position start, never growing b. -/
def goCopyAt (b : List Nat) (start : Nat) (src : List Nat) : List Nat :=
  b.take start ++ goCopy (b.drop start) src

/-- Helper checkExactByteLength from error.go: errors unless length equals
exact, wrapping ErrInvalidBytes with the formatted message. -/
def checkExactByteLength (exact length : Nat) : Option GoError :=
  if length ≠ exact then
    some (GoError.wrap ("data must be at exact " ++ toString exact ++
      " bytes long but is " ++ toString length) ErrInvalidBytes)
  else none

/-- The Ed25519Signature entity from signature.go: a 32-byte public key and a
64-byte signature (Go fixed-size byte arrays, modelled as lists). -/
structure Ed25519Signature where
  PublicKey : List Nat
  Signature : List Nat
deriving DecidableEq

/-- The zero value of Ed25519Signature: Go zeroes fixed-size byte arrays. -/
def emptyEd25519Signature : Ed25519Signature :=
  { PublicKey := List.replicate Ed25519PublicKeySize 0
    Signature := List.replicate Ed25519SignatureSize 0 }

/-- Ed25519Signature.Deserialize from signature.go. The source skips the type
byte, checks that the REMAINING length equals the full
Ed25519SignatureSerializedBytesSize, and on success copies the key and
signature bytes into the receiver; the Go method has a VALUE receiver, so the
copies mutate a local copy that is discarded at return, and the method returns
Ed25519AddressSerializedBytesSize as the consumed count. The locally updated
copy is computed here to mirror the source text, and the original receiver is
returned, matching the caller-visible Go behavior. -/
def Ed25519Signature.Deserialize (e : Ed25519Signature) (data : List Nat) :
    Ed25519Signature × Nat × Option GoError :=
  let rest := data.drop OneByte
  match checkExactByteLength Ed25519SignatureSerializedBytesSize rest.length with
  | some err => (e, 0, some err)
  | none =>
    let _localCopy : Ed25519Signature :=
      { PublicKey := goCopy e.PublicKey (rest.take Ed25519PublicKeySize)
        Signature := goCopy e.Signature (rest.drop Ed25519PublicKeySize) }
    (e, Ed25519AddressSerializedBytesSize, none)

/-- Ed25519Signature.Serialize from signature.go. The source declares a
fixed-size buffer of Ed25519AddressSerializedBytesSize bytes (the ADDRESS
constant, 33), sets byte 0 to the Ed25519 type discriminant, copies the public
key at offset 1, and copies the signature at offset 33 — past the end of the
33-byte buffer, so Go copy writes nothing there. -/
def Ed25519Signature.Serialize (e : Ed25519Signature) : List Nat × Option GoError :=
  let b := List.replicate Ed25519AddressSerializedBytesSize 0
  let b := b.set 0 SignatureEd25519
  let b := goCopyAt b OneByte e.PublicKey
  let b := goCopyAt b (OneByte + Ed25519PublicKeySize) e.Signature
  (b, none)

/-- The WOTSSignature entity from signature.go: an empty struct whose methods
are unimplemented stubs. -/
structure WOTSSignature where
  deriving DecidableEq

/-- Outcome of a Go call that may abort the process instead of returning:
either a panic with its message, or a normal return value. -/
inductive PanicOr (α : Type) where
  | panics (msg : String)
  | done (val : α)
deriving DecidableEq

/-- WOTSSignature.Serialize from signature.go: the body is a bare
panic with the message implement me. -/
def WOTSSignature.Serialize (_w : WOTSSignature) : PanicOr (List Nat × Option GoError) :=
  PanicOr.panics "implement me"

/-- WOTSSignature.Deserialize from signature.go: the body is a bare
panic with the message implement me. -/
def WOTSSignature.Deserialize (_w : WOTSSignature) (_data : List Nat) :
    PanicOr (WOTSSignature × Nat × Option GoError) :=
  PanicOr.panics "implement me"

/-- The closed family of signature entities behind the Serializable interface
for the signature type selector. -/
inductive Signature where
  | wots (w : WOTSSignature)
  | ed25519 (e : Ed25519Signature)
deriving DecidableEq

/-- SignatureSelector from signature.go: switches on the type byte and returns
a freshly constructed empty instance of the matching variant, or wraps
ErrUnknownSignatureType with the offending type byte for unknown values. -/
def SignatureSelector (typeByte : Nat) : Except GoError Signature :=
  if typeByte = SignatureWOTS then Except.ok (Signature.wots {})
  else if typeByte = SignatureEd25519 then Except.ok (Signature.ed25519 emptyEd25519Signature)
  else Except.error (GoError.wrap ("type byte " ++ toString typeByte) ErrUnknownSignatureType)

/-- ArrayRules from serializable.go: declarative bounds, per-bound error
signals, and the lexical-order requirement with its error signal, attached to
one specific array occurrence. -/
structure ArrayRules where
  Min : Nat
  Max : Nat
  MinErr : GoError
  MaxErr : GoError
  ElementBytesLexicalOrder : Bool
  ElementBytesLexicalOrderErr : GoError

/-- ArrayRules.CheckBounds from serializable.go: a nonzero Min below which the
count fails with a wrap of MinErr, then a nonzero Max above which the count
fails with a wrap of MaxErr; a bound of 0 imposes no check on that side. -/
def ArrayRules.CheckBounds (ar : ArrayRules) (count : Nat) : Option GoError :=
  if ar.Min ≠ 0 ∧ count < ar.Min then
    some (GoError.wrap ("min is " ++ toString ar.Min ++ " but count is " ++ toString count) ar.MinErr)
  else if ar.Max ≠ 0 ∧ count > ar.Max then
    some (GoError.wrap ("max is " ++ toString ar.Max ++ " but count is " ++ toString count) ar.MaxErr)
  else none

/-- Go bytes.Compare: lexicographic byte-wise comparison returning a negative,
zero, or positive result. -/
def bytesCompare : List Nat → List Nat → Int
  | [], [] => 0
  | [], _ :: _ => -1
  | _ :: _, [] => 1
  | a :: as, b :: bs => if a < b then -1 else if b < a then 1 else bytesCompare as bs

/-- ArrayRules.LexicalOrderValidator from serializable.go, with the stateful
closure made explicit: the state is the remembered previous element bytes and
index (none before the first call). The source errors exactly when the
comparison of the previous bytes against the next bytes is positive; in every
other case (first element, ascending pair, or EQUAL pair) it stores the
current element as the new previous one and reports no error. -/
def ArrayRules.LexicalOrderValidator (ar : ArrayRules) (st : Option (List Nat × Nat))
    (index : Nat) (next : List Nat) : Option (List Nat × Nat) × Option GoError :=
  match st with
  | none => (some (next, index), none)
  | some (prev, prevIndex) =>
    if bytesCompare prev next > 0 then
      (some (prev, prevIndex),
        some (GoError.wrap ("element " ++ toString index ++ " should have been before element "
          ++ toString prevIndex) ar.ElementBytesLexicalOrderErr))
    else (some (next, index), none)

/-- DeserializeObject from serializable.go, generic over the concrete entity
type behind the Serializable interface: deser stands for the dynamic
Deserialize method of the instance resolved by the selector. The type
denotation is read with the varint decoder WITHOUT advancing the buffer, the
selector resolves the discriminant, and the resolved entity deserializes the
SAME, un-advanced buffer. The Go triple (nil, 0, err) on failure and
(instance, consumed, nil) on success is modelled as an Except value. -/
def DeserializeObject {α : Type} (deser : α → List Nat → Nat → α × Nat × Option GoError)
    (data : List Nat) (deSeriMode : Nat) (serSel : Nat → Except GoError α) :
    Except GoError (α × Nat) :=
  match Uvarint data with
  | (_, _, some e) =>
    Except.error (GoError.wrap "can not deserialize inner object since type denotation is invalid" e)
  | (ty, _, none) =>
    match serSel ty with
    | Except.error e => Except.error e
    | Except.ok seri =>
      match deser seri data deSeriMode with
      | (_, _, some e) => Except.error (GoError.wrap "unable to deserialize" e)
      | (seri2, seriBytesConsumed, none) => Except.ok (seri2, seriBytesConsumed)

/-- Element loop of DeserializeArrayOfObjects from serializable.go: rest is
the buffer already advanced past the count varint, remaining counts down from
the declared element count, i is the running element index, offset the bytes
consumed by previous elements, seris the accumulated elements, and lexSt the
lexical-order validator state (lexAr is some exactly when rules are attached
and require lexical order). Every failure returns the empty list with zero
bytes consumed, as in the source. -/
def deserializeArrayLoop {α : Type} (deser : α → List Nat → Nat → α × Nat × Option GoError)
    (deSeriMode : Nat) (serSel : Nat → Except GoError α) (lexAr : Option ArrayRules)
    (rest : List Nat) : Nat → Nat → Nat → List α → Option (List Nat × Nat) →
    List α × Nat × Option GoError
  | 0, _, offset, seris, _ => (seris, offset, none)
  | remaining + 1, i, offset, seris, lexSt =>
    match DeserializeObject deser (rest.drop offset) deSeriMode serSel with
    | Except.error e => ([], 0, some e)
    | Except.ok (seri, seriBytesConsumed) =>
      match lexAr with
      | some ar =>
        match ar.LexicalOrderValidator lexSt i ((rest.drop offset).take seriBytesConsumed) with
        | (_, some e) => ([], 0, some e)
        | (lexSt2, none) =>
          deserializeArrayLoop deser deSeriMode serSel lexAr rest remaining (i + 1)
            (offset + seriBytesConsumed) (seris ++ [seri]) lexSt2
      | none =>
        deserializeArrayLoop deser deSeriMode serSel lexAr rest remaining (i + 1)
          (offset + seriBytesConsumed) (seris ++ [seri]) lexSt

/-- Final result assembly of DeserializeArrayOfObjects: on loop success the
count-varint size is added to the element bytes (bytesReadTotal in the
source); a loop failure is returned as the empty list with zero bytes
consumed, exactly as every error return of the source does. -/
def sealArrayResult {α : Type} (seriCountBytesSize : Nat) :
    List α × Nat × Option GoError → List α × Nat × Option GoError
  | (seris, offset, none) => (seris, seriCountBytesSize + offset, none)
  | (_, _, some e) => ([], 0, some e)

/-- DeserializeArrayOfObjects from serializable.go: reads the count varint,
checks the attached array rules bounds against the declared count BEFORE any
element is decoded, then decodes count elements through DeserializeObject,
threading the lexical-order validator when the rules require it. On success
the consumed total is the count-varint size plus the element bytes; on any
failure the result is the empty list, zero bytes consumed, and the error. -/
def DeserializeArrayOfObjects {α : Type} (deser : α → List Nat → Nat → α × Nat × Option GoError)
    (data : List Nat) (deSeriMode : Nat) (serSel : Nat → Except GoError α)
    (arrayRules : Option ArrayRules) : List α × Nat × Option GoError :=
  match Uvarint data with
  | (_, _, some e) => ([], 0, some (GoError.wrap "can not read array object length" e))
  | (seriCount, seriCountBytesSize, none) =>
    match (match arrayRules with | some ar => ar.CheckBounds seriCount | none => none) with
    | some e => ([], 0, some e)
    | none =>
      let lexAr : Option ArrayRules :=
        match arrayRules with
        | some ar => if ar.ElementBytesLexicalOrder then some ar else none
        | none => none
      sealArrayResult seriCountBytesSize
        (deserializeArrayLoop deser deSeriMode serSel lexAr (data.drop seriCountBytesSize)
          seriCount 0 0 [] none)

/-- A minimal concrete entity used to instantiate the generic codec in closed
statements: one payload byte behind a type byte. -/
structure TestObj where
  val : Nat
deriving DecidableEq

/-- Decode function of the test entity: consumes its own type byte plus one
value byte, failing when the buffer is too short. -/
def testDeser (o : TestObj) (data : List Nat) (_deSeriMode : Nat) :
    TestObj × Nat × Option GoError :=
  match data with
  | _ty :: v :: _ => ({ val := v }, 2, none)
  | _ => (o, 0, some ErrDeserializationDataTooSmall)

/-- Selector of the test entity family: type 0 resolves to the empty test
entity, every other discriminant fails. -/
def testSel (ty : Nat) : Except GoError TestObj :=
  if ty = 0 then Except.ok { val := 0 }
  else Except.error (GoError.wrap ("type byte " ++ toString ty) (GoError.base "unknown test type"))

/-- Modelled from the spec: little-endian encoding of an unsigned 16-bit
field (the output index of a UTXO reference). -/
def uint16ToBytes (x : Nat) : List Nat := [x % 256, x / 256 % 256]

/-- Modelled from the spec: little-endian encoding of an unsigned 64-bit
field (the deposit amount of an output). -/
def uint64ToBytes (x : Nat) : List Nat :=
  [x % 256, x / 256 % 256, x / 256 ^ 2 % 256, x / 256 ^ 3 % 256,
   x / 256 ^ 4 % 256, x / 256 ^ 5 % 256, x / 256 ^ 6 % 256, x / 256 ^ 7 % 256]

/-- Modelled from the spec: the Input entity (its source file is not under
src/) — a UTXO reference holding a 32-byte transaction id and an unsigned
16-bit output index. -/
structure UTXOInput where
  TransactionID : List Nat
  TransactionOutputIndex : Nat
deriving DecidableEq

/-- Modelled from the spec: Input wire layout, one type byte followed by the
32 transaction-id bytes and the 2 output-index bytes. -/
def UTXOInput.serialize (i : UTXOInput) : List Nat :=
  0 :: (i.TransactionID ++ uint16ToBytes i.TransactionOutputIndex)

/-- Modelled from the spec: the Ed25519 address entity (its source file is not
under src/) — a 32-byte public key behind a type byte. -/
structure Ed25519Address where
  PublicKey : List Nat
deriving DecidableEq

/-- Modelled from the spec: Ed25519 address wire layout, one type byte
followed by the 32 public-key bytes. -/
def Ed25519Address.serialize (a : Ed25519Address) : List Nat :=
  1 :: a.PublicKey

/-- Modelled from the spec: the Output entity (its source file is not under
src/) — a deposit of an unsigned 64-bit amount to an address. -/
structure Output where
  Address : Ed25519Address
  Amount : Nat
deriving DecidableEq

/-- Modelled from the spec: Output wire layout, one type byte followed by the
serialized address and the 8 amount bytes. -/
def Output.serialize (o : Output) : List Nat :=
  0 :: (o.Address.serialize ++ uint64ToBytes o.Amount)

/-- Existence of two list entries with the same value, used by the uniqueness
validators to detect a duplicated derived key. -/
def hasDupKey : List (List Nat) → Bool
  | [] => false
  | k :: rest => rest.contains k || hasDupKey rest

/-- Modelled from the spec: the UTXO-reference uniqueness validator (its
source file is not under src/) derives a key per input from the transaction id
and the output index and fails with ErrInputUTXORefsNotUnique when two inputs
share a key. -/
def InputsUTXORefsUniqueValidator (inputs : List UTXOInput) : Option GoError :=
  if hasDupKey (inputs.map fun i => i.TransactionID ++ uint16ToBytes i.TransactionOutputIndex)
  then some ErrInputUTXORefsNotUnique else none

/-- Modelled from the spec: the address uniqueness validator (its source file
is not under src/) derives a key per output from the serialized address bytes
and fails with ErrOutputAddrNotUnique when two outputs share a key. -/
def OutputsAddrUniqueValidator (outputs : List Output) : Option GoError :=
  if hasDupKey (outputs.map fun o => o.Address.serialize)
  then some ErrOutputAddrNotUnique else none

/-- Modelled from the spec: validator composition (its source file is not
under src/) — validators run in caller-declared order and short-circuit on the
first failure. -/
def runValidators {α : Type} (x : α) : List (α → Option GoError) → Option GoError
  | [] => none
  | v :: rest =>
    match v x with
    | some e => some e
    | none => runValidators x rest

/-- Modelled from the spec: ValidateInputs (its source file is not under src/)
runs the given validators over the inputs collection in order. -/
def ValidateInputs (inputs : List UTXOInput)
    (validators : List (List UTXOInput → Option GoError)) : Option GoError :=
  runValidators inputs validators

/-- Modelled from the spec: ValidateOutputs (its source file is not under
src/) runs the given validators over the outputs collection in order. -/
def ValidateOutputs (outputs : List Output)
    (validators : List (List Output → Option GoError)) : Option GoError :=
  runValidators outputs validators

/-- The UnsignedTransaction entity from the transaction source file: inputs,
outputs, and an optional opaque payload. The payload is held behind the
Serializable interface in the source; here it is its Serialize method, a
function from the skipValidation flag to serialized bytes plus optional
error. -/
structure UnsignedTransaction where
  Inputs : List UTXOInput
  Outputs : List Output
  Payload : Option (Bool → List Nat × Option GoError)

/-- TransactionSelector from the transaction source file: type byte 0 resolves
to a freshly constructed empty UnsignedTransaction, every other value wraps
ErrUnknownTransactionType with the offending type byte. -/
def TransactionSelector (typeByte : Nat) : Except GoError UnsignedTransaction :=
  if typeByte = TransactionUnsigned then
    Except.ok { Inputs := [], Outputs := [], Payload := none }
  else
    Except.error (GoError.wrap ("type byte " ++ toString typeByte) ErrUnknownTransactionType)

/-- UnsignedTransaction.Serialize from the transaction source file. Unless
skipValidation is set, the inputs UTXO-reference uniqueness validator and the
outputs address uniqueness validator run BEFORE anything is written, and a
failure returns the error with no bytes (Go returns a nil byte slice). The
byte stream is then the type byte, the inputs count varint and each serialized
input, the outputs count varint and each serialized output, then the payload
section: a single zero byte when the payload is nil; otherwise the source
writes the payload bytes, then the varint of their length, then the payload
bytes A SECOND TIME (and the error returned by the payload serializer is
shadowed by an inner declaration and never checked). The spec-modelled input
and output serializers are total, so the per-element error checks of the
source are vacuous here. -/
def UnsignedTransaction.Serialize (u : UnsignedTransaction) (skipValidation : Bool) :
    List Nat × Option GoError :=
  let valErr : Option GoError :=
    if skipValidation then none
    else
      match ValidateInputs u.Inputs [InputsUTXORefsUniqueValidator] with
      | some e => some e
      | none => ValidateOutputs u.Outputs [OutputsAddrUniqueValidator]
  match valErr with
  | some e => ([], some e)
  | none =>
    let b := [TransactionUnsigned]
    let b := b ++ PutUvarint u.Inputs.length
    let b := b ++ (u.Inputs.map UTXOInput.serialize).flatten
    let b := b ++ PutUvarint u.Outputs.length
    let b := b ++ (u.Outputs.map Output.serialize).flatten
    match u.Payload with
    | none => (b ++ [0], none)
    | some p =>
      let payloadSer := (p skipValidation).1
      (b ++ payloadSer ++ PutUvarint payloadSer.length ++ payloadSer, none)

/-- Helper: byte-wise lexical comparison of a list against itself is zero. -/
theorem bytesCompare_self : (l : List Nat) → bytesCompare l l = 0
  | [] => rfl
  | _ :: as => by simp [bytesCompare, bytesCompare_self as]

/-- Claim C1 (code bug evaluation): the round-trip decode(encode(x)) = x
FAILS on Ed25519Signature. At the concrete signature x with an all-zero
public key and an all-one signature, Serialize emits only 33 bytes — the
buffer is sized with the ADDRESS constant, so the 64 signature bytes are
dropped — and Deserialize on those emitted bytes returns an error, so the
round trip cannot reconstruct x. The source contradicts its own tests, which
expect Serialize to emit the full 97-byte encoding and Deserialize to
reconstruct the fields. -/
theorem ed25519_roundtrip_code_bug :
    (Ed25519Signature.Serialize
      { PublicKey := List.replicate 32 0, Signature := List.replicate 64 1 }).2 = none
    ∧ (Ed25519Signature.Serialize
      { PublicKey := List.replicate 32 0, Signature := List.replicate 64 1 }).1.length = 33
    ∧ ((Ed25519Signature.Serialize
      { PublicKey := List.replicate 32 0, Signature := List.replicate 64 1 }).1.count 1 = 1)
    ∧ (Ed25519Signature.Deserialize emptyEd25519Signature
        (Ed25519Signature.Serialize
          { PublicKey := List.replicate 32 0, Signature := List.replicate 64 1 }).1).2.2.isSome
      = true := by decide

/-- Claim C2 (code bug evaluation): decoding a buffer that IS a valid 97-byte
Ed25519 signature encoding does not succeed consuming 97 bytes. The source
skips the type byte and then demands that the REMAINING 96 bytes equal the
full 97-byte size, so the valid encoding fails; and on a 98-byte buffer,
where the length check happens to pass, the method reports 33 bytes consumed
(the ADDRESS size constant), not 97. The source contradicts its own tests,
which expect success with bytes consumed equal to the full encoded length. -/
theorem ed25519_exact_consumption_code_bug :
    ((1 : Nat) :: (List.replicate 32 2 ++ List.replicate 64 3)).length
      = Ed25519SignatureSerializedBytesSize
    ∧ (Ed25519Signature.Deserialize emptyEd25519Signature
        ((1 : Nat) :: (List.replicate 32 2 ++ List.replicate 64 3))).2.2.isSome = true
    ∧ (Ed25519Signature.Deserialize emptyEd25519Signature
        (((1 : Nat) :: (List.replicate 32 2 ++ List.replicate 64 3)) ++ [0])).2.2 = none
    ∧ (Ed25519Signature.Deserialize emptyEd25519Signature
        (((1 : Nat) :: (List.replicate 32 2 ++ List.replicate 64 3)) ++ [0])).2.1 = 33 := by
  decide

/-- Claim C5 (counterexample): invoking the encode and decode operations of
the WOTS signature variant does NOT return an Unimplemented error condition —
both method bodies are bare panics, modelled as the panics outcome, so the
process aborts instead of an error value reaching the caller. -/
theorem wots_panics_counterexample :
    WOTSSignature.Serialize {} = PanicOr.panics "implement me"
    ∧ WOTSSignature.Deserialize {} [0] = PanicOr.panics "implement me" := ⟨rfl, rfl⟩

/-- Claim C5 (amended): invoking the encode or decode operation of the
unimplemented legacy (WOTS) signature variant aborts via a panic whose
message is implement me, on every receiver and every input buffer; no
Unimplemented error value is ever returned (none exists in the package). -/
theorem wots_methods_panic (w : WOTSSignature) (data : List Nat) :
    w.Serialize = PanicOr.panics "implement me"
    ∧ w.Deserialize data = PanicOr.panics "implement me" := ⟨rfl, rfl⟩

/-- Array rules fixture with the lexical-order requirement enabled and no
count bounds, used to exercise the order validation path. -/
def lexTestRules : ArrayRules :=
  { Min := 0, Max := 0, MinErr := ErrInvalidBytes, MaxErr := ErrInvalidBytes,
    ElementBytesLexicalOrder := true,
    ElementBytesLexicalOrderErr := ErrInputsOrderViolatesLexicalOrder }

/-- Claim C3 (counterexample): with lexical-order rules enabled, an array of
two adjacent elements with EQUAL raw encoded bytes (both encode as the bytes
0, 5) decodes successfully — the decode does NOT fail with the lexical-order
violation error, because the validator only rejects a strictly descending
pair. -/
theorem lexical_equal_elements_accepted :
    DeserializeArrayOfObjects testDeser [2, 0, 5, 0, 5] 0 testSel (some lexTestRules)
      = ([{ val := 5 }, { val := 5 }], 5, none) := by decide

/-- Claim C3 (amended): during lexical-order validation, an element whose raw
encoded bytes EQUAL the previous element's bytes is accepted — the validator
advances its remembered previous element to the current index and reports no
error — and a violation is raised exactly for a strictly descending adjacent
pair, naming both offending indices. -/
theorem lexical_order_equal_pair_accepted (ar : ArrayRules) (prev next : List Nat)
    (pi idx : Nat) :
    ar.LexicalOrderValidator (some (prev, pi)) idx prev = (some (prev, idx), none)
    ∧ (bytesCompare prev next > 0 →
      ar.LexicalOrderValidator (some (prev, pi)) idx next
        = (some (prev, pi),
            some (GoError.wrap ("element " ++ toString idx ++ " should have been before element "
              ++ toString pi) ar.ElementBytesLexicalOrderErr))) := by
  constructor
  · simp [ArrayRules.LexicalOrderValidator, bytesCompare_self]
  · intro h
    simp [ArrayRules.LexicalOrderValidator, h]

/-- Witness for the amended claim C3 at concrete inputs: an equal pair is
accepted with the state advanced, and a strictly descending pair raises the
violation error naming both indices. -/
theorem lexical_order_equal_pair_accepted_witness :
    lexTestRules.LexicalOrderValidator (some ([5], 0)) 1 [5] = (some ([5], 1), none)
    ∧ lexTestRules.LexicalOrderValidator (some ([5], 0)) 1 [4]
      = (some ([5], 0),
          some (GoError.wrap ("element " ++ toString (1 : Nat) ++ " should have been before element "
            ++ toString (0 : Nat)) lexTestRules.ElementBytesLexicalOrderErr)) := by
  have h := lexical_order_equal_pair_accepted lexTestRules [5] [4] 0 1
  exact ⟨h.1, h.2 (by decide)⟩

/-- Claim C6: for every discriminant outside the known set, the signature
selector returns the unknown-type error wrapping the family error value
(whose message names the family) together with the offending value, and the
transaction selector does the same for its family; for the known
discriminants each selector returns a freshly constructed empty instance of
the matching variant. The selectors are total functions, so no invocation
panics. -/
theorem selectors_unknown_type (ty : Nat) :
    (ty ≠ SignatureWOTS → ty ≠ SignatureEd25519 →
      SignatureSelector ty
        = Except.error (GoError.wrap ("type byte " ++ toString ty) ErrUnknownSignatureType))
    ∧ SignatureSelector SignatureWOTS = Except.ok (Signature.wots {})
    ∧ SignatureSelector SignatureEd25519 = Except.ok (Signature.ed25519 emptyEd25519Signature)
    ∧ (ty ≠ TransactionUnsigned →
      TransactionSelector ty
        = Except.error (GoError.wrap ("type byte " ++ toString ty) ErrUnknownTransactionType))
    ∧ TransactionSelector TransactionUnsigned
        = Except.ok { Inputs := [], Outputs := [], Payload := none } := by
  refine ⟨?_, rfl, rfl, ?_, rfl⟩
  · intro h0 h1
    simp [SignatureSelector, h0, h1]
  · intro h0
    simp [TransactionSelector, h0]

/-- Witness for claim C6 at the concrete unknown discriminant 100: both
selectors return the unknown-type error carrying the family error value and
the offending value. -/
theorem selectors_unknown_type_witness :
    SignatureSelector 100
      = Except.error (GoError.wrap ("type byte " ++ toString (100 : Nat)) ErrUnknownSignatureType)
    ∧ TransactionSelector 100
      = Except.error (GoError.wrap ("type byte " ++ toString (100 : Nat)) ErrUnknownTransactionType) := by
  have h := selectors_unknown_type 100
  exact ⟨h.1 (by decide) (by decide), h.2.2.2.1 (by decide)⟩

/-- Claim C7: with rules attached, the bound check runs against the declared
varint count BEFORE any element is decoded — the element decode function and
the selector are universally quantified here and never invoked on the failure
paths, so the result does not depend on them. A count below a nonzero Min
fails with a wrap of the rules MinErr; once the Min check passes, a count
above a nonzero Max fails with a wrap of the rules MaxErr; and when both
bounds are zero the bound check imposes nothing. -/
theorem array_bounds_checked_first {α : Type}
    (deser : α → List Nat → Nat → α × Nat × Option GoError)
    (serSel : Nat → Except GoError α) (deSeriMode : Nat)
    (data : List Nat) (ar : ArrayRules) (c k : Nat)
    (hU : Uvarint data = (c, k, none)) :
    (ar.Min ≠ 0 → c < ar.Min →
      DeserializeArrayOfObjects deser data deSeriMode serSel (some ar)
        = ([], 0, some (GoError.wrap ("min is " ++ toString ar.Min ++ " but count is "
            ++ toString c) ar.MinErr)))
    ∧ (¬(ar.Min ≠ 0 ∧ c < ar.Min) → ar.Max ≠ 0 → c > ar.Max →
      DeserializeArrayOfObjects deser data deSeriMode serSel (some ar)
        = ([], 0, some (GoError.wrap ("max is " ++ toString ar.Max ++ " but count is "
            ++ toString c) ar.MaxErr)))
    ∧ (ar.Min = 0 → ar.Max = 0 → ar.CheckBounds c = none) := by
  refine ⟨?_, ?_, ?_⟩
  · intro h1 h2
    simp only [DeserializeArrayOfObjects, hU, ArrayRules.CheckBounds, if_pos (And.intro h1 h2)]
  · intro h1 h2 h3
    simp only [DeserializeArrayOfObjects, hU, ArrayRules.CheckBounds, if_neg h1,
      if_pos (And.intro h2 h3)]
  · intro h1 h2
    simp [ArrayRules.CheckBounds, h1, h2]

/-- Witness for claim C7 at a concrete buffer: the declared count 5 violates
the Min bound 7, so the decode fails with the MinErr wrap and zero bytes
consumed, even though the buffer holds no element bytes at all (decoding even
one element would itself fail, so the bound error shows the bound check ran
first). -/
theorem array_bounds_checked_first_witness :
    DeserializeArrayOfObjects testDeser [5] 0 testSel
      (some { Min := 7, Max := 0, MinErr := GoError.base "too few",
              MaxErr := GoError.base "too many", ElementBytesLexicalOrder := false,
              ElementBytesLexicalOrderErr := ErrInvalidBytes })
      = ([], 0, some (GoError.wrap ("min is " ++ toString (7 : Nat) ++ " but count is "
          ++ toString (5 : Nat)) (GoError.base "too few"))) := by
  exact (array_bounds_checked_first testDeser testSel 0 [5] _ 5 1 (by decide)).1
    (by decide) (by decide)

/-- Helper for claim C8: every failing run of the element loop returns the
empty list and zero bytes consumed alongside the error. -/
theorem deserializeArrayLoop_fail_empty {α : Type}
    (deser : α → List Nat → Nat → α × Nat × Option GoError) (deSeriMode : Nat)
    (serSel : Nat → Except GoError α) (lexAr : Option ArrayRules) (rest : List Nat) :
    ∀ (remaining i offset : Nat) (seris : List α) (lexSt : Option (List Nat × Nat)) (e : GoError),
      (deserializeArrayLoop deser deSeriMode serSel lexAr rest remaining i offset seris lexSt).2.2
        = some e →
      deserializeArrayLoop deser deSeriMode serSel lexAr rest remaining i offset seris lexSt
        = ([], 0, some e) := by
  intro remaining
  induction remaining with
  | zero => intro i offset seris lexSt e h; simp [deserializeArrayLoop] at h
  | succ r ih =>
    intro i offset seris lexSt e h
    rw [deserializeArrayLoop] at h ⊢
    split at h
    · simp at h; exact h ▸ rfl
    · split at h
      · split at h
        · simp at h; exact h ▸ rfl
        · exact ih _ _ _ _ _ h
      · exact ih _ _ _ _ _ h

/-- Helper for claim C8: a failing sealed array result is the empty list with
zero bytes consumed. -/
theorem sealArrayResult_fail {α : Type} (k : Nat) (r : List α × Nat × Option GoError)
    (e : GoError) (h : (sealArrayResult k r).2.2 = some e) :
    sealArrayResult k r = ([], 0, some e) := by
  rcases r with ⟨s, o, err⟩
  cases err <;> simp_all [sealArrayResult]

/-- Claim C8: whenever the array-of-objects decode fails — in particular when
some element's decode fails — it returns only the failure: the empty sequence
(the successfully decoded prefix is discarded) and a bytes-consumed count of
zero. -/
theorem array_failure_discards_partial {α : Type}
    (deser : α → List Nat → Nat → α × Nat × Option GoError)
    (data : List Nat) (deSeriMode : Nat) (serSel : Nat → Except GoError α)
    (arrayRules : Option ArrayRules) (e : GoError)
    (h : (DeserializeArrayOfObjects deser data deSeriMode serSel arrayRules).2.2 = some e) :
    DeserializeArrayOfObjects deser data deSeriMode serSel arrayRules = ([], 0, some e) := by
  rw [DeserializeArrayOfObjects.eq_def] at h ⊢
  split at h
  · simp at h; exact h ▸ rfl
  · split at h
    · simp at h; exact h ▸ rfl
    · exact sealArrayResult_fail _ _ _ h

/-- Witness for claim C8 at a concrete buffer: the declared count is 2 and the
first element (encoded as the bytes 0, 5) decodes fine, but the second element
decode fails on the single remaining byte, so the whole decode returns the
empty list, zero bytes consumed, and the wrapped element failure. -/
theorem array_failure_discards_partial_witness :
    DeserializeArrayOfObjects testDeser [2, 0, 5, 0] 0 testSel none
      = ([], 0, some (GoError.wrap "unable to deserialize" ErrDeserializationDataTooSmall)) := by
  exact array_failure_discards_partial testDeser [2, 0, 5, 0] 0 testSel none _ (by decide)

/-- Claim C9: whenever the object decode primitive succeeds, the entity it
returns comes from the selector applied to the discriminant read from the
un-advanced buffer, and that entity's own decode — applied to the SAME,
un-advanced buffer, so that it consumes its own discriminant byte — produced
exactly the bytes-consumed count the primitive reports: the discriminant is
counted once, not twice. -/
theorem deserializeObject_delegates {α : Type}
    (deser : α → List Nat → Nat → α × Nat × Option GoError)
    (data : List Nat) (deSeriMode : Nat) (serSel : Nat → Except GoError α)
    (a : α) (n : Nat)
    (h : DeserializeObject deser data deSeriMode serSel = Except.ok (a, n)) :
    ∃ s, serSel (Uvarint data).1 = Except.ok s ∧ deser s data deSeriMode = (a, n, none) := by
  rw [DeserializeObject] at h
  split at h
  · simp at h
  · rename_i ty k heq
    split at h
    · simp at h
    · rename_i seri hsel
      split at h
      · simp at h
      · rename_i seri2 m hdes
        simp only [Except.ok.injEq, Prod.mk.injEq] at h
        refine ⟨seri, ?_, ?_⟩
        · rw [heq]; exact hsel
        · rw [hdes, h.1, h.2]

/-- Witness for claim C9 at a concrete buffer: the primitive decodes the test
entity from the bytes 0, 7 reporting 2 bytes consumed, and indeed the selector
resolves discriminant 0 and the entity decoder consumes those same 2 bytes of
the un-advanced buffer. -/
theorem deserializeObject_delegates_witness :
    DeserializeObject testDeser [0, 7] 0 testSel = Except.ok ({ val := 7 }, 2)
    ∧ ∃ s, testSel (Uvarint [0, 7]).1 = Except.ok s
        ∧ testDeser s [0, 7] 0 = ({ val := 7 }, 2, none) := by
  have h : DeserializeObject testDeser [0, 7] 0 testSel = Except.ok ({ val := 7 }, 2) := rfl
  exact ⟨h, deserializeObject_delegates testDeser [0, 7] 0 testSel _ _ h⟩

/-- Claim C4: with validation enabled (skipValidation false), the serializer
re-validates the inputs and outputs collections before producing any bytes:
a transaction whose inputs duplicate a UTXO reference key serializes to the
empty byte sequence together with the duplicate-reference error, and one whose
inputs are clean but whose outputs duplicate a deposit address key serializes
to the empty byte sequence together with the duplicate-address error — in
both cases no wire bytes are produced. -/
theorem serialize_validates_before_bytes (u : UnsignedTransaction) :
    (hasDupKey (u.Inputs.map fun i =>
        i.TransactionID ++ uint16ToBytes i.TransactionOutputIndex) = true →
      u.Serialize false = ([], some ErrInputUTXORefsNotUnique))
    ∧ (hasDupKey (u.Inputs.map fun i =>
        i.TransactionID ++ uint16ToBytes i.TransactionOutputIndex) = false →
       hasDupKey (u.Outputs.map fun o => o.Address.serialize) = true →
      u.Serialize false = ([], some ErrOutputAddrNotUnique)) := by
  constructor
  · intro h
    simp [UnsignedTransaction.Serialize, ValidateInputs, ValidateOutputs, runValidators,
      InputsUTXORefsUniqueValidator, OutputsAddrUniqueValidator, h]
  · intro h1 h2
    simp [UnsignedTransaction.Serialize, ValidateInputs, ValidateOutputs, runValidators,
      InputsUTXORefsUniqueValidator, OutputsAddrUniqueValidator, h1, h2]

/-- Witness for claim C4 at concrete transactions: one with the same UTXO
reference twice among its inputs fails serialization with the
duplicate-reference error and empty bytes, and one with two deposits to the
same address fails with the duplicate-address error and empty bytes. -/
theorem serialize_validates_before_bytes_witness :
    UnsignedTransaction.Serialize
      { Inputs := [{ TransactionID := List.replicate 32 0, TransactionOutputIndex := 0 },
                   { TransactionID := List.replicate 32 0, TransactionOutputIndex := 0 }],
        Outputs := [], Payload := none } false
      = ([], some ErrInputUTXORefsNotUnique)
    ∧ UnsignedTransaction.Serialize
      { Inputs := [],
        Outputs := [{ Address := { PublicKey := List.replicate 32 7 }, Amount := 1 },
                    { Address := { PublicKey := List.replicate 32 7 }, Amount := 2 }],
        Payload := none } false
      = ([], some ErrOutputAddrNotUnique) := by
  constructor
  · exact (serialize_validates_before_bytes _).1 (by decide)
  · exact (serialize_validates_before_bytes _).2 (by decide) (by decide)

/-- Claim C10: whenever serialization of a transaction with a non-nil payload
succeeds, the emitted bytes are the transaction prefix (type byte, inputs
section, outputs section — obtained from the nil-payload serialization by
dropping its trailing zero byte) followed by the payload bytes, then the
varint of their length, then the payload bytes A SECOND TIME; and the
nil-payload serialization of the same transaction emits exactly that prefix
followed by a single zero byte. -/
theorem serialize_payload_twice (ins : List UTXOInput) (outs : List Output)
    (p : Bool → List Nat × Option GoError) (sv : Bool)
    (hok : (UnsignedTransaction.Serialize
        { Inputs := ins, Outputs := outs, Payload := some p } sv).2 = none) :
    UnsignedTransaction.Serialize { Inputs := ins, Outputs := outs, Payload := some p } sv
      = ((UnsignedTransaction.Serialize { Inputs := ins, Outputs := outs, Payload := none } sv).1.dropLast
          ++ (p sv).1 ++ PutUvarint (p sv).1.length ++ (p sv).1, none)
    ∧ UnsignedTransaction.Serialize { Inputs := ins, Outputs := outs, Payload := none } sv
      = ((UnsignedTransaction.Serialize
          { Inputs := ins, Outputs := outs, Payload := none } sv).1.dropLast ++ [0], none) := by
  rw [UnsignedTransaction.Serialize] at hok ⊢
  rw [UnsignedTransaction.Serialize]
  split at hok
  · simp at hok
  · rename_i heq
    rw [heq]
    refine ⟨?_, ?_⟩ <;>
    · dsimp only
      rw [List.dropLast_concat]

/-- Witness for claim C10 at a concrete transaction (no inputs, no outputs,
payload serializing to the bytes 9, 9): the emitted stream is the type byte,
the two zero counts, then 9 9 (payload), 2 (its length varint), and 9 9 AGAIN;
the same transaction without payload ends in a single zero byte instead. -/
theorem serialize_payload_twice_witness :
    UnsignedTransaction.Serialize
      { Inputs := [], Outputs := [], Payload := some fun _ => ([9, 9], none) } true
      = ([0, 0, 0, 9, 9, 2, 9, 9], none)
    ∧ UnsignedTransaction.Serialize { Inputs := [], Outputs := [], Payload := none } true
      = ([0, 0, 0, 0], none) := by
  have h := serialize_payload_twice [] [] (fun _ => ([9, 9], none)) true rfl
  exact ⟨h.1.trans (by decide), h.2.trans (by decide)⟩
